import Mathlib

/-!
Verification of the motion-blinds BLE communication module
(`esphome/components/motion_blinds/motion_blinds_communication.cpp`)
against its natural-language specification.

The module is embedded shallowly: the hexadecimal codec and command
builders become pure Lean functions on `Nat`/`String`; the GATT event
handler becomes a step function from a session state and a transport
event to a new state plus a list of observable actions (characteristic
writes, descriptor writes, callback invocations).  The vendor cipher
(`Crypto::encrypt` / `Crypto::decrypt`) is an opaque external bijection,
so outbound writes are recorded by their plaintext raw command and
inbound notifications are modelled by their decrypted payload.
-/

namespace MotionBlinds

/-! ## Constants (lines 15-19 of the source) -/

def WANTED_MTU : Nat := 512

def COMMAND_USER_QUERY : String := "02C005"

def COMMAND_SET_USER_KEY : String := "02C001"

def COMMAND_SET_TIME : String := "09A001"

def NOTIFY_MESSAGE_PHONE_USER : String := "0cc0060505"

/-! ## Hexadecimal rendering

`std::stringstream << std::hex << value` prints the value in lowercase
hexadecimal with no leading zeros, printing `"0"` for zero. -/

/-- Lowercase hexadecimal digit character for a value below 16. -/
def hexDigitChar (d : Nat) : Char :=
  if d < 10 then Char.ofNat (48 + d) else Char.ofNat (87 + d)

/-- Fuel-driven little-endian base-16 digit extraction (structurally
recursive so the kernel can evaluate it; agrees with `Nat.digits 16`). -/
def hexDigitsAux (fuel : Nat) (n : Nat) : List Nat :=
  match fuel with
  | 0 => []
  | fuel + 1 => if n = 0 then [] else n % 16 :: hexDigitsAux fuel (n / 16)

/-- Little-endian base-16 digits of `n` (empty for zero). -/
def hexDigits (n : Nat) : List Nat := hexDigitsAux n n

theorem hexDigitsAux_eq_digits (fuel : Nat) :
    ∀ n : Nat, n ≤ fuel → hexDigitsAux fuel n = Nat.digits 16 n := by
  induction fuel with
  | zero =>
    intro n hn
    interval_cases n
    simp [hexDigitsAux]
  | succ fuel ih =>
    intro n hn
    by_cases h0 : n = 0
    · subst h0; simp [hexDigitsAux]
    · have hpos : 0 < n := Nat.pos_of_ne_zero h0
      rw [hexDigitsAux, if_neg h0, Nat.digits_def' (by norm_num : (1:ℕ) < 16) hpos,
        ih (n / 16) ?_]
      have : n / 16 < n := Nat.div_lt_self hpos (by norm_num)
      omega

theorem hexDigits_eq_digits (n : Nat) : hexDigits n = Nat.digits 16 n :=
  hexDigitsAux_eq_digits n n le_rfl

/-- Rendering of a natural number the way `std::hex` prints it:
lowercase digits, no leading zeros, `"0"` for zero. -/
def toHexString (n : Nat) : String :=
  if n = 0 then "0" else String.mk ((hexDigits n).map hexDigitChar).reverse

/-- Numeric value of one lowercase hexadecimal digit character. -/
def hexCharVal (c : Char) : Nat :=
  if 97 ≤ c.toNat then c.toNat - 87 else c.toNat - 48

/-- Parse a hexadecimal string back to a natural number (most
significant digit first); leading zeros are harmless. -/
def parseHexNat (s : String) : Nat :=
  s.data.foldl (fun acc c => 16 * acc + hexCharVal c) 0

/-! ## The codec's fixed-width renderer

`MotionBlindsCommunication::format_hex_num` (source lines 156-182),
with the C++ branch nesting reproduced exactly. -/

/-- Embeds `MotionBlindsCommunication::format_hex_num(size_t, bool)`.
The second argument is the `prefix` flag of the source, named
`zero_pad` here. -/
def format_hex_num (value : Nat) (zero_pad : Bool) : String :=
  let str1 := toHexString value
  let length := str1.length
  if (length == 1 && !zero_pad) || length == 3 then
    "0" ++ str1
  else
    if length != 1 then
      if length == 2 then
        if zero_pad then "00" ++ str1 else str1
      else str1
    else
      "000" ++ str1

example : format_hex_num 5 false = "05" := by decide
example : format_hex_num 5 true = "0005" := by decide
example : format_hex_num 42 false = "2a" := by decide
example : format_hex_num 42 true = "002a" := by decide
example : format_hex_num 300 false = "012c" := by decide
example : format_hex_num 4096 true = "1000" := by decide

/-! ## Round-trip and length lemmas for the codec -/

theorem hexCharVal_hexDigitChar : ∀ d < 16, hexCharVal (hexDigitChar d) = d := by
  decide

theorem foldl_parse_map (l : List Nat) (h : ∀ d ∈ l, d < 16) (acc : Nat) :
    List.foldl (fun a c => 16 * a + hexCharVal c) acc (l.map hexDigitChar)
      = List.foldl (fun a d => 16 * a + d) acc l := by
  induction l generalizing acc with
  | nil => rfl
  | cons d t ih =>
    simp only [List.map_cons, List.foldl_cons]
    rw [hexCharVal_hexDigitChar d (h d (List.mem_cons_self d t))]
    exact ih (fun x hx => h x (List.mem_cons_of_mem d hx)) _

theorem foldl_reverse_ofDigits (L : List Nat) (acc : Nat) :
    List.foldl (fun a d => 16 * a + d) acc L.reverse
      = acc * 16 ^ L.length + Nat.ofDigits 16 L := by
  induction L generalizing acc with
  | nil => simp
  | cons d t ih =>
    simp only [List.reverse_cons, List.foldl_append, List.foldl_cons, List.foldl_nil,
      ih, Nat.ofDigits_cons, List.length_cons]
    ring

theorem parseHexNat_toHexString (n : Nat) : parseHexNat (toHexString n) = n := by
  by_cases h0 : n = 0
  · subst h0; rfl
  · unfold toHexString parseHexNat
    rw [if_neg h0]
    show List.foldl (fun a c => 16 * a + hexCharVal c) 0
      ((List.map hexDigitChar (hexDigits n)).reverse) = n
    rw [← List.map_reverse, hexDigits_eq_digits,
      foldl_parse_map _ (fun d hd => Nat.digits_lt_base (by norm_num)
        (List.mem_reverse.mp hd)) 0,
      foldl_reverse_ofDigits]
    simp [Nat.ofDigits_digits]

theorem parseHexNat_zero_cons (s : String) :
    parseHexNat ("0" ++ s) = parseHexNat s := by
  show List.foldl (fun a c => 16 * a + hexCharVal c) 0 (("0" ++ s).data) = _
  have : ("0" ++ s).data = '0' :: s.data := by
    simp [String.data_append]
  rw [this]
  rfl

theorem format_hex_num_of_len1_false (v : Nat) (h : (toHexString v).length = 1) :
    format_hex_num v false = "0" ++ toHexString v := by
  simp [format_hex_num, h]

theorem format_hex_num_of_len1_true (v : Nat) (h : (toHexString v).length = 1) :
    format_hex_num v true = "000" ++ toHexString v := by
  simp [format_hex_num, h]

theorem format_hex_num_of_len2_false (v : Nat) (h : (toHexString v).length = 2) :
    format_hex_num v false = toHexString v := by
  simp [format_hex_num, h]

theorem format_hex_num_of_len2_true (v : Nat) (h : (toHexString v).length = 2) :
    format_hex_num v true = "00" ++ toHexString v := by
  simp [format_hex_num, h]

theorem format_hex_num_of_len3 (v : Nat) (h : (toHexString v).length = 3) (b : Bool) :
    format_hex_num v b = "0" ++ toHexString v := by
  simp [format_hex_num, h]

theorem format_hex_num_of_len_other (v : Nat) (h1 : (toHexString v).length ≠ 1)
    (h2 : (toHexString v).length ≠ 2) (h3 : (toHexString v).length ≠ 3) (b : Bool) :
    format_hex_num v b = toHexString v := by
  simp [format_hex_num, h1, h2, h3]

theorem parseHexNat_format_hex_num (v : Nat) (b : Bool) :
    parseHexNat (format_hex_num v b) = v := by
  have h0 : parseHexNat (toHexString v) = v := parseHexNat_toHexString v
  have h00 : "00" ++ toHexString v = "0" ++ ("0" ++ toHexString v) := by
    simp [← String.append_assoc]
  have h000 : "000" ++ toHexString v = "0" ++ ("0" ++ ("0" ++ toHexString v)) := by
    simp [← String.append_assoc]
  by_cases h1 : (toHexString v).length = 1
  · cases b
    · rw [format_hex_num_of_len1_false v h1, parseHexNat_zero_cons, h0]
    · rw [format_hex_num_of_len1_true v h1, h000, parseHexNat_zero_cons,
        parseHexNat_zero_cons, parseHexNat_zero_cons, h0]
  · by_cases h2 : (toHexString v).length = 2
    · cases b
      · rw [format_hex_num_of_len2_false v h2, h0]
      · rw [format_hex_num_of_len2_true v h2, h00, parseHexNat_zero_cons,
          parseHexNat_zero_cons, h0]
    · by_cases h3 : (toHexString v).length = 3
      · rw [format_hex_num_of_len3 v h3, parseHexNat_zero_cons, h0]
      · rw [format_hex_num_of_len_other v h1 h2 h3, h0]

theorem toHexString_length (n : Nat) :
    (toHexString n).length = if n = 0 then 1 else Nat.log 16 n + 1 := by
  unfold toHexString
  split
  · rfl
  · show (String.mk ((hexDigits n).map hexDigitChar).reverse).length = _
    show (((hexDigits n).map hexDigitChar).reverse).length = _
    rw [List.length_reverse, List.length_map, hexDigits_eq_digits,
      Nat.digits_len 16 n (by norm_num) (by assumption)]

theorem toHexString_length_pos (n : Nat) : 0 < (toHexString n).length := by
  rw [toHexString_length]
  split <;> omega

theorem toHexString_length_le (n k : Nat) (hk : 0 < k) (h : n < 16 ^ k) :
    (toHexString n).length ≤ k := by
  rw [toHexString_length]
  split
  · omega
  · have := (Nat.lt_pow_iff_log_lt (by norm_num : (1:ℕ) < 16)
      (by assumption)).mp h
    omega

theorem length_append_str (a b : String) : (a ++ b).length = a.length + b.length := by
  show ((a ++ b).data).length = a.data.length + b.data.length
  simp [String.data_append]

theorem format_hex_num_length_false (v : Nat) (h : v < 256) :
    (format_hex_num v false).length = 2 := by
  have h1 : 0 < (toHexString v).length := toHexString_length_pos v
  have h2 : (toHexString v).length ≤ 2 :=
    toHexString_length_le v 2 (by norm_num) (by norm_num; omega)
  by_cases hl : (toHexString v).length = 1
  · rw [format_hex_num_of_len1_false v hl, length_append_str, hl]; rfl
  · have hl2 : (toHexString v).length = 2 := by omega
    rw [format_hex_num_of_len2_false v hl2, hl2]

theorem format_hex_num_length_true (v : Nat) (h : v < 65536) :
    (format_hex_num v true).length = 4 := by
  have h1 : 0 < (toHexString v).length := toHexString_length_pos v
  have h2 : (toHexString v).length ≤ 4 :=
    toHexString_length_le v 4 (by norm_num) (by norm_num; omega)
  by_cases hl1 : (toHexString v).length = 1
  · rw [format_hex_num_of_len1_true v hl1, length_append_str, hl1]; rfl
  · by_cases hl2 : (toHexString v).length = 2
    · rw [format_hex_num_of_len2_true v hl2, length_append_str, hl2]; rfl
    · by_cases hl3 : (toHexString v).length = 3
      · rw [format_hex_num_of_len3 v hl3, length_append_str, hl3]; rfl
      · have hl4 : (toHexString v).length = 4 := by omega
        rw [format_hex_num_of_len_other v hl1 hl2 hl3, hl4]

/-! ## Time values and the command builders

`time::ESPTime` restricted to the fields the module reads.  The
millisecond sample (`gettimeofday` / `tv_usec / 1000`, source line
192-202) is independent of the `ESPTime` value, so the builders take it
as a separate argument. -/

structure ESPTime where
  year : Nat
  month : Nat
  day_of_month : Nat
  hour : Nat
  minute : Nat
  second : Nat
  day_of_week : Nat
deriving Repr, DecidableEq

/-- Embeds `append_time_string` (source lines 191-205): the timestamp
suffix of a query-style command in year·month·day·hour·minute·second·ms
order, the six time fields non-prefixed, milliseconds prefixed. -/
def append_time_string (lt : ESPTime) (ms : Nat) : String :=
  format_hex_num (lt.year % 100) false ++ format_hex_num lt.month false ++
    format_hex_num lt.day_of_month false ++ format_hex_num lt.hour false ++
    format_hex_num lt.minute false ++ format_hex_num lt.second false ++
    format_hex_num ms true

/-- Embeds `make_raw_command` (source lines 184-189): the command text
followed by the query-style timestamp, for every command. -/
def make_raw_command (command : String) (lt : ESPTime) (ms : Nat) : String :=
  command ++ append_time_string lt ms

/-- Embeds `format_week_day` (source line 223). -/
def format_week_day (day : Nat) : String :=
  format_hex_num (day - 1) false

/-- Embeds `append_set_time_string` (source lines 210-221): the set-time
payload in weekday·hour·minute·second·year·month·day order, without a
millisecond field. -/
def append_set_time_string (lt : ESPTime) : String :=
  format_week_day lt.day_of_week ++ format_hex_num lt.hour false ++
    format_hex_num lt.minute false ++ format_hex_num lt.second false ++
    format_hex_num (lt.year % 100) false ++ format_hex_num lt.month false ++
    format_hex_num lt.day_of_month false

/-- The spec's `build_query_command`: realised in the source as
`make_raw_command` applied to the opcode (lines 184-189). -/
def build_query_command (opcode : String) (lt : ESPTime) (ms : Nat) : String :=
  make_raw_command opcode lt ms

/-- The spec's `build_set_time_command`: realised in the source as the
buffer built in `send_set_time_` (lines 149-154) before it is handed to
`send_command`. -/
def build_set_time_command (opcode : String) (lt : ESPTime) : String :=
  opcode ++ append_set_time_string lt

/-! ## The protocol state machine

Session state mirrors the fields of `MotionBlindsCommunication`
(constructor, source lines 27-28) together with the `message_` buffer's
`raw_command` bookkeeping (line 47).  Encryption being an opaque
bijection, the `message_` buffer is represented by the plaintext it was
built from. -/

inductive ClientState where
  | IDLE
  | ESTABLISHED
deriving Repr, DecidableEq

structure Message where
  raw_command : String
deriving Repr, DecidableEq

structure State where
  write_char_handle : Nat
  notify_char_handle : Nat
  has_mtu_change : Bool
  node_state : ClientState
  message : Message
deriving Repr, DecidableEq

/-- Initial session state, from the constructor (source lines 27-28);
`message_` is default-constructed, so its remembered command is empty. -/
def initState : State :=
  { write_char_handle := 0, notify_char_handle := 0, has_mtu_change := false,
    node_state := ClientState.IDLE, message := { raw_command := "" } }

/-- Observable effects of the module on its collaborators. -/
inductive Action where
  | WriteChar (handle : Nat) (plain : String)
  | RegisterForNotify (handle : Nat)
  | WriteDescr (handle : Nat)
  | SetLocalMtu (mtu : Nat)
  | SendMtuReq
  | OnNotify (value : String)
  | OnDisconnected
  | TransportConnect
deriving Repr, DecidableEq

/-- Transport events delivered to `gattc_event_handler`.  A search
completion carries the discovered notify characteristic handle (if any)
and the discovered write characteristic handle together with its
notify-property bit (if any); a notification carries the handle it
arrived on and its decrypted payload (`decode_value`, the opaque
cipher's inverse). -/
inductive Event where
  | Open
  | Disconnect (reason : Nat)
  | SearchCmpl (notifyChar : Option Nat) (writeChar : Option (Nat × Bool))
  | RegForNotify
  | Notify (handle : Nat) (decrypted : String)
  | CfgMtu (mtu : Nat)
  | WriteCharEvt
deriving Repr, DecidableEq

/-- Mirrors `std::string::find(sig) == 0` (source lines 120 and 139):
the string begins with the given signature. -/
def starts_with (s sig : String) : Bool :=
  sig.data.isPrefixOf s.data

/-- Embeds `MotionBlindsCommunication::send_command` (source lines
42-51): build the raw command with the appended timestamp, encrypt it
(opaque — the write action carries the plaintext), remember the
caller-supplied command text in `message_.raw_command`, and write the
characteristic. -/
def send_command (s : State) (command : String) (lt : ESPTime) (ms : Nat) :
    State × List Action :=
  let raw := make_raw_command command lt ms
  ({ s with message := { raw_command := command } },
    [Action.WriteChar s.write_char_handle raw])

/-- Embeds `MotionBlindsCommunication::send_set_time_` (source lines
149-154). -/
def send_set_time (s : State) (lt : ESPTime) (ms : Nat) : State × List Action :=
  send_command s (build_set_time_command COMMAND_SET_TIME lt) lt ms

/-- Embeds `MotionBlindsCommunication::gattc_event_handler` (source
lines 53-147), one transport event at a time.  `lt` and `ms` are the
clock samples any `send_command` inside the handler would draw. -/
def gattc_event_handler (s : State) (ev : Event) (lt : ESPTime) (ms : Nat) :
    State × List Action :=
  match ev with
  | Event.Open => (s, [])
  | Event.Disconnect _ =>
      ({ s with
          has_mtu_change := false,
          node_state := ClientState.IDLE,
          write_char_handle := 0 },
        [Action.OnDisconnected])
  | Event.SearchCmpl notifyChar writeChar =>
      let step1 : State × List Action :=
        match notifyChar with
        | some h => ({ s with notify_char_handle := h },
            [Action.RegisterForNotify h, Action.WriteDescr h])
        | none => (s, [])
      let step2 : State × List Action :=
        match writeChar with
        | some (h, hasNotifyProp) =>
            ({ step1.1 with write_char_handle := h },
              if hasNotifyProp then [Action.RegisterForNotify h] else [])
        | none => (step1.1, [])
      (step2.1, step1.2 ++ step2.2)
  | Event.RegForNotify =>
      if s.has_mtu_change then
        send_command s COMMAND_USER_QUERY lt ms
      else
        (s, [Action.SetLocalMtu WANTED_MTU, Action.SendMtuReq])
  | Event.Notify handle value =>
      if handle ≠ s.notify_char_handle then
        (s, [])
      else if starts_with value NOTIFY_MESSAGE_PHONE_USER then
        send_command s COMMAND_SET_USER_KEY lt ms
      else
        (s, [Action.OnNotify value])
  | Event.CfgMtu mtu =>
      if mtu = WANTED_MTU then
        let s1 := { s with has_mtu_change := true }
        if s1.write_char_handle ≠ 0 then
          send_command s1 COMMAND_USER_QUERY lt ms
        else
          (s1, [])
      else
        (s, [])
  | Event.WriteCharEvt =>
      if s.message.raw_command = COMMAND_SET_USER_KEY then
        send_set_time s lt ms
      else if starts_with s.message.raw_command COMMAND_SET_TIME then
        ({ s with node_state := ClientState.ESTABLISHED }, [])
      else
        (s, [])

/-- Embeds `MotionBlindsCommunication::connect` (source lines 30-35):
no call to the transport when it already reports connected. -/
def connect (transportConnected : Bool) (s : State) : State × List Action :=
  if transportConnected then (s, []) else (s, [Action.TransportConnect])

/-! ## Event traces and the outstanding-write discipline -/

/-- One delivered transport event together with the clock samples any
send inside its handler would draw. -/
structure EventIn where
  ev : Event
  lt : ESPTime
  ms : Nat
deriving Repr, DecidableEq

def stepIn (s : State) (e : EventIn) : State × List Action :=
  gattc_event_handler s e.ev e.lt e.ms

def isWriteAction (a : Action) : Bool :=
  match a with
  | Action.WriteChar _ _ => true
  | _ => false

/-- Number of characteristic writes among a handler invocation's
actions. -/
def countWrites (acts : List Action) : Nat :=
  (acts.filter isWriteAction).length

def isAckEvent (e : EventIn) : Bool :=
  match e.ev with
  | Event.WriteCharEvt => true
  | _ => false

/-- Checks the single-outstanding-write discipline along an event
sequence: a write-acknowledgement event clears the in-flight write
before its handler runs, and issuing a characteristic write while one
is still in flight is a violation. -/
def oneInFlight (s : State) (pending : Bool) : List EventIn → Bool
  | [] => true
  | e :: rest =>
      let stillPending := pending && !(isAckEvent e)
      let out := stepIn s e
      if stillPending && (countWrites out.2 != 0) then
        false
      else
        oneInFlight out.1 (stillPending || (countWrites out.2 != 0)) rest

/-- A reachable event sequence on which the machine issues a second
write while the first is still unacknowledged: discovery finds both
characteristics, the MTU result triggers the user-query write, and a
phone-user notification arrives before the write-acknowledgement. -/
def overlapTrace : List EventIn :=
  [ { ev := Event.SearchCmpl (some 1) (some (2, false)),
      lt := ⟨2024, 3, 15, 13, 7, 42, 6⟩, ms := 0 },
    { ev := Event.CfgMtu 512, lt := ⟨2024, 3, 15, 13, 7, 42, 6⟩, ms := 0 },
    { ev := Event.Notify 1 "0cc00605051234", lt := ⟨2024, 3, 15, 13, 7, 42, 6⟩,
      ms := 0 } ]

/-! ## Claim theorems -/

/-- C1, counterexample: the disconnect handler (source lines 59-66) does
not clear `message_.raw_command`; starting from a state that remembers
the set-user-key command, the remembered command survives the disconnect
and differs from its initial (empty) value. -/
theorem claim_C1_counterexample :
    ((gattc_event_handler
          { initState with message := { raw_command := COMMAND_SET_USER_KEY } }
          (Event.Disconnect 19) ⟨2024, 3, 15, 13, 7, 42, 6⟩ 0).1).message.raw_command
        = COMMAND_SET_USER_KEY ∧
      COMMAND_SET_USER_KEY ≠ initState.message.raw_command := by
  exact ⟨rfl, by decide⟩

/-- C1, amended: a disconnect event in any state transitions the session
to Idle, resets the write-characteristic handle and the MTU-negotiated
flag to their initial values, leaves the notify handle and the
remembered last-sent command untouched, and invokes `on_disconnected()`
exactly once. -/
theorem claim_C1 (s : State) (reason : Nat) (lt : ESPTime) (ms : Nat) :
    (gattc_event_handler s (Event.Disconnect reason) lt ms).1.node_state
        = ClientState.IDLE ∧
      (gattc_event_handler s (Event.Disconnect reason) lt ms).1.write_char_handle = 0 ∧
      (gattc_event_handler s (Event.Disconnect reason) lt ms).1.has_mtu_change = false ∧
      (gattc_event_handler s (Event.Disconnect reason) lt ms).1.message = s.message ∧
      (gattc_event_handler s (Event.Disconnect reason) lt ms).1.notify_char_handle
        = s.notify_char_handle ∧
      (gattc_event_handler s (Event.Disconnect reason) lt ms).2
        = [Action.OnDisconnected] :=
  ⟨rfl, rfl, rfl, rfl, rfl, rfl⟩

/-- C2, counterexample: for the 1-hex-digit value 5, `format_hex_num`
with the flag false yields the 2-character `"05"`, not the 4-character
`"0005"` the claim's table row demands (and with the flag true it yields
`"0005"`, not `"05"`). -/
theorem claim_C2_counterexample :
    format_hex_num 5 false ≠ "0005" ∧ format_hex_num 5 false = "05" ∧
      format_hex_num 5 true ≠ "05" ∧ format_hex_num 5 true = "0005" := by
  refine ⟨by decide, by decide, by decide, by decide⟩

/-- C2, amended: the two 1-digit table rows are swapped relative to the
claim — a 1-hex-digit value with the flag false pads to 2 characters
with one leading `"0"`, with the flag true it pads to 4 characters with
leading `"000"`; 2 digits with the flag true pad to 4 with `"00"`,
2 digits with the flag false stay unchanged, 3 digits pad to 4 with one
leading `"0"`, and 4 digits stay unchanged. -/
theorem claim_C2 (v : Nat) :
    ((toHexString v).length = 1 →
      format_hex_num v false = "0" ++ toHexString v ∧
        format_hex_num v true = "000" ++ toHexString v) ∧
    ((toHexString v).length = 2 →
      format_hex_num v false = toHexString v ∧
        format_hex_num v true = "00" ++ toHexString v) ∧
    ((toHexString v).length = 3 →
      ∀ b, format_hex_num v b = "0" ++ toHexString v) ∧
    ((toHexString v).length = 4 →
      ∀ b, format_hex_num v b = toHexString v) := by
  refine ⟨fun h1 => ⟨format_hex_num_of_len1_false v h1, format_hex_num_of_len1_true v h1⟩,
    fun h2 => ⟨format_hex_num_of_len2_false v h2, format_hex_num_of_len2_true v h2⟩,
    fun h3 => format_hex_num_of_len3 v h3,
    fun h4 => format_hex_num_of_len_other v (by omega) (by omega) (by omega)⟩

/-- C2, witness: the amended table evaluated at the 1-digit value 5. -/
theorem claim_C2_witness :
    (toHexString 5).length = 1 ∧ format_hex_num 5 false = "0" ++ toHexString 5 ∧
      format_hex_num 5 true = "000" ++ toHexString 5 := by
  exact ⟨by decide, (claim_C2 5).1 (by decide)⟩

/-- C3, counterexample: at local time 2024-03-15 13:07:42 with
millisecond sample 7, the query command is the opcode followed by 16 hex
characters (four of them for the milliseconds), not 14. -/
theorem claim_C3_counterexample :
    build_query_command COMMAND_USER_QUERY ⟨2024, 3, 15, 13, 7, 42, 6⟩ 7
        = "02C00518030f0d072a0007" ∧
      (append_time_string ⟨2024, 3, 15, 13, 7, 42, 6⟩ 7).length ≠ 14 := by
  refine ⟨by decide, by decide⟩

/-- C3, amended: for every local time with in-range fields, the query
command is the opcode followed by exactly 16 hex characters — year (mod
100), month, day, hour, minute and second rendered non-prefixed at 2
characters each, milliseconds rendered prefixed at 4 characters. -/
theorem claim_C3 (lt : ESPTime) (ms : Nat) (hmo : lt.month < 256)
    (hd : lt.day_of_month < 256) (hh : lt.hour < 256) (hmi : lt.minute < 256)
    (hs : lt.second < 256) (hms : ms < 65536) :
    build_query_command COMMAND_USER_QUERY lt ms
        = COMMAND_USER_QUERY ++ (format_hex_num (lt.year % 100) false ++
            format_hex_num lt.month false ++ format_hex_num lt.day_of_month false ++
            format_hex_num lt.hour false ++ format_hex_num lt.minute false ++
            format_hex_num lt.second false ++ format_hex_num ms true) ∧
      (append_time_string lt ms).length = 16 := by
  refine ⟨rfl, ?_⟩
  unfold append_time_string
  rw [length_append_str, length_append_str, length_append_str, length_append_str,
    length_append_str, length_append_str,
    format_hex_num_length_false _ (by omega), format_hex_num_length_false _ hmo,
    format_hex_num_length_false _ hd, format_hex_num_length_false _ hh,
    format_hex_num_length_false _ hmi, format_hex_num_length_false _ hs,
    format_hex_num_length_true _ hms]

/-- C3, witness: the amended statement at 2024-03-15 13:07:42, ms 7. -/
theorem claim_C3_witness :
    build_query_command COMMAND_USER_QUERY ⟨2024, 3, 15, 13, 7, 42, 6⟩ 7
        = COMMAND_USER_QUERY ++ (format_hex_num (2024 % 100) false ++
            format_hex_num 3 false ++ format_hex_num 15 false ++
            format_hex_num 13 false ++ format_hex_num 7 false ++
            format_hex_num 42 false ++ format_hex_num 7 true) ∧
      (append_time_string ⟨2024, 3, 15, 13, 7, 42, 6⟩ 7).length = 16 :=
  claim_C3 ⟨2024, 3, 15, 13, 7, 42, 6⟩ 7 (by decide) (by decide) (by decide)
    (by decide) (by decide) (by decide)

/-- C4, counterexample: for the non-handshake command `"AABBCC"`,
`send_command` writes the command with the query timestamp appended, not
the caller-supplied string unchanged. -/
theorem claim_C4_counterexample :
    (send_command initState "AABBCC" ⟨2024, 3, 15, 13, 7, 42, 6⟩ 7).2
        = [Action.WriteChar 0 "AABBCC18030f0d072a0007"] ∧
      "AABBCC18030f0d072a0007" ≠ "AABBCC" := by
  refine ⟨by decide, by decide⟩

/-- C4, amended: `send_command` treats every command identically — it
appends the builder's query timestamp to the caller-supplied string,
remembers the caller-supplied string, and writes the timestamped result,
which is strictly longer than (hence never equal to) the caller-supplied
string. -/
theorem claim_C4 (s : State) (command : String) (lt : ESPTime) (ms : Nat)
    (hmo : lt.month < 256) (hd : lt.day_of_month < 256) (hh : lt.hour < 256)
    (hmi : lt.minute < 256) (hs : lt.second < 256) (hms : ms < 65536) :
    (send_command s command lt ms).2
        = [Action.WriteChar s.write_char_handle (command ++ append_time_string lt ms)] ∧
      (send_command s command lt ms).1.message.raw_command = command ∧
      command ++ append_time_string lt ms ≠ command := by
  refine ⟨rfl, rfl, fun hEq => ?_⟩
  have hlen := congrArg String.length hEq
  rw [length_append_str,
    (claim_C3 lt ms hmo hd hh hmi hs hms).2] at hlen
  omega

/-- C4, witness: the amended statement at a concrete non-handshake
command and time. -/
theorem claim_C4_witness :
    (send_command initState "AABBCC" ⟨2024, 3, 15, 13, 7, 42, 6⟩ 7).2
        = [Action.WriteChar initState.write_char_handle
            ("AABBCC" ++ append_time_string ⟨2024, 3, 15, 13, 7, 42, 6⟩ 7)] ∧
      (send_command initState "AABBCC" ⟨2024, 3, 15, 13, 7, 42, 6⟩ 7).1.message.raw_command
        = "AABBCC" ∧
      "AABBCC" ++ append_time_string ⟨2024, 3, 15, 13, 7, 42, 6⟩ 7 ≠ "AABBCC" :=
  claim_C4 initState "AABBCC" ⟨2024, 3, 15, 13, 7, 42, 6⟩ 7 (by decide) (by decide)
    (by decide) (by decide) (by decide) (by decide)

/-- C5, counterexample: for `day_of_week = 3` the encoded weekday field
is `format_hex_num (3 - 1) false = "02"`, not `"01"`; the full set-time
command at 2024-03-15 13:07:42 (weekday 3) is shown for placement. -/
theorem claim_C5_counterexample :
    format_week_day 3 = "02" ∧ format_week_day 3 ≠ "01" ∧
      build_set_time_command COMMAND_SET_TIME ⟨2024, 3, 15, 13, 7, 42, 3⟩
        = "09A001020d072a18030f" := by
  refine ⟨by decide, by decide, by decide⟩

/-- C5, amended: the set-time command is the opcode followed by the
weekday encoded as `format_hex_num (day_of_week - 1)` with the
non-prefixed rule — `"02"` for `day_of_week = 3` — then hour, minute,
second, year (last two digits), month and day, with no millisecond
field. -/
theorem claim_C5 (lt : ESPTime) :
    build_set_time_command COMMAND_SET_TIME lt
        = COMMAND_SET_TIME ++ append_set_time_string lt ∧
      append_set_time_string lt
        = format_week_day lt.day_of_week ++ format_hex_num lt.hour false ++
            format_hex_num lt.minute false ++ format_hex_num lt.second false ++
            format_hex_num (lt.year % 100) false ++ format_hex_num lt.month false ++
            format_hex_num lt.day_of_month false ∧
      format_week_day lt.day_of_week = format_hex_num (lt.day_of_week - 1) false ∧
      format_week_day 3 = "02" :=
  ⟨rfl, rfl, rfl, by decide⟩

/-- C6: a notification on the notify characteristic whose decrypted
payload begins with the phone-user signature causes exactly one write —
the set-user-key command (with the builder's timestamp) — and no
`on_notify` call; any other decrypted payload is dispatched to
`on_notify` unchanged, with no write and no state change. -/
theorem claim_C6 (s : State) (v : String) (lt : ESPTime) (ms : Nat) :
    (starts_with v NOTIFY_MESSAGE_PHONE_USER = true →
      gattc_event_handler s (Event.Notify s.notify_char_handle v) lt ms
        = ({ s with message := { raw_command := COMMAND_SET_USER_KEY } },
            [Action.WriteChar s.write_char_handle
              (make_raw_command COMMAND_SET_USER_KEY lt ms)])) ∧
    (starts_with v NOTIFY_MESSAGE_PHONE_USER = false →
      gattc_event_handler s (Event.Notify s.notify_char_handle v) lt ms
        = (s, [Action.OnNotify v])) := by
  constructor
  · intro h
    simp [gattc_event_handler, h, send_command]
  · intro h
    simp [gattc_event_handler, h]

/-- C6, witness: both branches at concrete payloads, on a session whose
notify handle is the initial one. -/
theorem claim_C6_witness :
    gattc_event_handler initState
        (Event.Notify initState.notify_char_handle "0cc0060505ff")
        ⟨2024, 3, 15, 13, 7, 42, 6⟩ 0
      = ({ initState with message := { raw_command := COMMAND_SET_USER_KEY } },
          [Action.WriteChar initState.write_char_handle
            (make_raw_command COMMAND_SET_USER_KEY ⟨2024, 3, 15, 13, 7, 42, 6⟩ 0)]) ∧
    gattc_event_handler initState
        (Event.Notify initState.notify_char_handle "deadbeef")
        ⟨2024, 3, 15, 13, 7, 42, 6⟩ 0
      = (initState, [Action.OnNotify "deadbeef"]) :=
  ⟨(claim_C6 initState "0cc0060505ff" ⟨2024, 3, 15, 13, 7, 42, 6⟩ 0).1 (by decide),
    (claim_C6 initState "deadbeef" ⟨2024, 3, 15, 13, 7, 42, 6⟩ 0).2 (by decide)⟩

/-- C7: for every value up to 9999 and either flag, parsing
`format_hex_num`'s output back as hexadecimal recovers the value. -/
theorem claim_C7 (v : Nat) (h : v ≤ 9999) (b : Bool) :
    parseHexNat (format_hex_num v b) = v :=
  parseHexNat_format_hex_num v b

/-- C7, witness: the round trip at the endpoint 9999 with the flag
true. -/
theorem claim_C7_witness :
    9999 ≤ 9999 ∧ parseHexNat (format_hex_num 9999 true) = 9999 :=
  ⟨le_rfl, claim_C7 9999 le_rfl true⟩

/-- C8, counterexample: on the reachable trace `overlapTrace` —
discovery finds both characteristics, the MTU result triggers the
user-query write, and a phone-user notification arrives before the
write-acknowledgement — the machine issues a second characteristic
write while the first is still in flight. -/
theorem claim_C8_counterexample :
    oneInFlight initState false overlapTrace = false := by decide

/-- C8, amended: the state machine issues at most one characteristic
write per delivered transport event; it does not, however, wait for the
previous write's acknowledgement, so consecutive events can put two
writes in flight. -/
theorem claim_C8 (s : State) (ev : Event) (lt : ESPTime) (ms : Nat) :
    countWrites (gattc_event_handler s ev lt ms).2 ≤ 1 := by
  cases ev with
  | Open => simp [gattc_event_handler, countWrites]
  | Disconnect reason => simp [gattc_event_handler, countWrites, isWriteAction]
  | SearchCmpl nc wc =>
    rcases nc with _ | h1 <;> rcases wc with _ | ⟨h2, b⟩
    · simp [gattc_event_handler, countWrites, isWriteAction]
    · cases b <;> simp [gattc_event_handler, countWrites, isWriteAction]
    · simp [gattc_event_handler, countWrites, isWriteAction]
    · cases b <;> simp [gattc_event_handler, countWrites, isWriteAction]
  | RegForNotify =>
    by_cases hm : s.has_mtu_change <;>
      simp [gattc_event_handler, hm, send_command, countWrites, isWriteAction]
  | Notify handle v =>
    by_cases hh : handle ≠ s.notify_char_handle
    · simp [gattc_event_handler, hh, countWrites]
    · by_cases hs : starts_with v NOTIFY_MESSAGE_PHONE_USER <;>
        simp [gattc_event_handler, hh, hs, send_command, countWrites, isWriteAction]
  | CfgMtu mtu =>
    by_cases hm : mtu = WANTED_MTU
    · by_cases hw : s.write_char_handle ≠ 0 <;>
        simp [gattc_event_handler, hm, hw, send_command, countWrites, isWriteAction]
    · simp [gattc_event_handler, hm, countWrites]
  | WriteCharEvt =>
    by_cases h1 : s.message.raw_command = COMMAND_SET_USER_KEY
    · simp [gattc_event_handler, h1, send_set_time, send_command, countWrites,
        isWriteAction]
    · by_cases h2 : starts_with s.message.raw_command COMMAND_SET_TIME <;>
        simp [gattc_event_handler, h1, h2, countWrites, isWriteAction]

/-- C9: a notification whose handle differs from the stored notify
characteristic handle is ignored completely — no action is emitted and
the session state is unchanged. -/
theorem claim_C9 (s : State) (h : Nat) (v : String) (lt : ESPTime) (ms : Nat)
    (hne : h ≠ s.notify_char_handle) :
    gattc_event_handler s (Event.Notify h v) lt ms = (s, []) := by
  simp [gattc_event_handler, hne]

/-- C9, witness: a phone-user payload arriving on handle 2 while the
notify handle is 1 is dropped without effect. -/
theorem claim_C9_witness :
    gattc_event_handler { initState with notify_char_handle := 1 }
        (Event.Notify 2 "0cc0060505ff") ⟨2024, 3, 15, 13, 7, 42, 6⟩ 0
      = ({ initState with notify_char_handle := 1 }, []) :=
  claim_C9 { initState with notify_char_handle := 1 } 2 "0cc0060505ff"
    ⟨2024, 3, 15, 13, 7, 42, 6⟩ 0 (by decide)

/-- C10: `connect()` with the transport already connected performs no
transport call and leaves the session unchanged; with the transport not
connected it issues exactly the transport connect call, again leaving
the session state unchanged. -/
theorem claim_C10 (s : State) :
    connect true s = (s, []) ∧ connect false s = (s, [Action.TransportConnect]) :=
  ⟨rfl, rfl⟩

end MotionBlinds
